import Mathlib

/-!
Verification development for the Lightning Meal Plans account pages:
the email-verification completion script (verify-email) and the
password-reset completion script (js/reset-password.js).

Each page script is embedded shallowly:
  * DOM state touched by the script becomes a record;
  * the outward-visible operations (provider SDK calls, navigation,
    scheduled alerts, URL-parameter reads) become an explicit `Effect`
    trace produced alongside the final DOM state;
  * JavaScript string truthiness (null/undefined and the empty string
    are falsy) is made explicit via `truthy` on `Option String`.
-/

namespace MealPlans

/-- The three query-string values read by `getUrlParameters` on both pages.
`none` models an absent parameter (JS `null`). -/
structure UrlParams where
  oobCode : Option String
  apiKey : Option String
  mode : Option String
deriving DecidableEq, Repr

/-- JavaScript truthiness of a string-or-null value: `null`/`undefined`
and the empty string are falsy, every other string is truthy. -/
def truthy : Option String → Bool
  | none => false
  | some s => s ≠ ""

/-- A Firebase error object as observed by the scripts: a `code` string
and a `message` string (either may be empty). -/
structure FirebaseError where
  code : String
  message : String
deriving DecidableEq, Repr

/-- Outcome of a single asynchronous provider call: it either resolves
or rejects with a `FirebaseError`. -/
inductive ProviderOutcome where
  | resolves
  | rejects (e : FirebaseError)
deriving DecidableEq, Repr

/-- Outward-visible actions a page script performs, in order. -/
inductive Effect where
  /-- a call of `getUrlParameters()` (a read of `window.location.search`) -/
  | readParams
  /-- `firebase.initializeApp(config)` with the given apiKey -/
  | initApp (apiKey : String)
  /-- `auth.applyActionCode(oobCode)` (verification page) -/
  | applyActionCode (oobCode : String)
  /-- `firebase.auth().verifyPasswordResetCode(oobCode)` (reset page, phase A) -/
  | verifyResetCode (oobCode : String)
  /-- `firebase.auth().confirmPasswordReset(oobCode, newPassword)`;
  `oobCode` stays `Option` because the handler passes `params.oobCode`
  through unchecked, so it can be JS `null` -/
  | confirmReset (oobCode : Option String) (newPassword : String)
  /-- assignment to `window.location.href` -/
  | navigate (url : String)
  /-- `setTimeout(() => alert(msg), delayMs)` -/
  | scheduleAlert (delayMs : Nat) (msg : String)
deriving DecidableEq, Repr

/-- Is this effect a provider network interaction (`initializeApp`
session use or one of the three action-code calls)? -/
def Effect.isProviderCall : Effect → Bool
  | .initApp _ => true
  | .applyActionCode _ => true
  | .verifyResetCode _ => true
  | .confirmReset _ _ => true
  | _ => false

/-- Is this effect a `getUrlParameters()` read? -/
def Effect.isParamRead : Effect → Bool
  | .readParams => true
  | _ => false

/-! ## Email verification page (verify-email script) -/

/-- DOM state touched by the verification page script: the `active`
class on the three panels, and the error panel's message, code text and
details visibility. -/
structure VerifyDom where
  loadingActive : Bool
  successActive : Bool
  errorActive : Bool
  errorMessage : String
  errorCodeText : String
  errorDetailsVisible : Bool
deriving DecidableEq, Repr

/-- `showLoading()`: add `active` to `#loading`, remove it from
`#success` and `#error`. -/
def showLoading (d : VerifyDom) : VerifyDom :=
  { d with loadingActive := true, successActive := false, errorActive := false }

/-- `showSuccess()`: add `active` to `#success`, remove it from
`#loading` and `#error`. -/
def showSuccess (d : VerifyDom) : VerifyDom :=
  { d with loadingActive := false, successActive := true, errorActive := false }

/-- `showError(message, errorCode)`: activate the error panel, set
`#error-message`, and only when `errorCode` is truthy set `#error-code`
and reveal `#error-details`. -/
def showError (message : String) (errorCode : Option String) (d : VerifyDom) : VerifyDom :=
  let d1 := { d with loadingActive := false, successActive := false,
                     errorActive := true, errorMessage := message }
  if truthy errorCode then
    { d1 with errorCodeText := "Error Code: " ++ errorCode.getD "",
              errorDetailsVisible := true }
  else d1

/-- The switch in `handleVerificationError`: the message appended to the
fixed prefix, chosen by the error code. -/
def verificationErrorSuffix (code : String) : String :=
  if code = "auth/expired-action-code" then
    "This link has expired. Please request a new verification email from the app."
  else if code = "auth/invalid-action-code" then
    "This link is invalid or has already been used."
  else if code = "auth/user-disabled" then
    "This account has been disabled. Please contact support."
  else if code = "auth/user-not-found" then
    "User account not found."
  else
    "Please try again or request a new verification email from the app."

/-- `handleVerificationError(error)`: build the message from the fixed
prefix plus the code-selected suffix, then `showError(message, error.code)`. -/
def handleVerificationError (error : FirebaseError) (d : VerifyDom) : VerifyDom :=
  showError ("Verification failed. " ++ verificationErrorSuffix error.code)
    (some error.code) d

/-- `initializeEmailVerification()`: read the URL parameters, check the
three preconditions in order (code, API key, mode), then initialize
Firebase and apply the action code; on resolve show success, on reject
run `handleVerificationError`. Returns the effect trace and final DOM. -/
def initializeEmailVerification (params : UrlParams) (outcome : ProviderOutcome)
    (d : VerifyDom) : List Effect × VerifyDom :=
  if ¬ truthy params.oobCode then
    ([Effect.readParams],
     showError "Invalid verification link. Missing verification code." none d)
  else if ¬ truthy params.apiKey then
    ([Effect.readParams],
     showError "Invalid verification link. Missing API key." none d)
  else if params.mode ≠ some "verifyEmail" then
    ([Effect.readParams],
     showError "Invalid verification link. This link is not for email verification." none d)
  else
    let effs := [Effect.readParams, Effect.initApp (params.apiKey.getD ""),
                 Effect.applyActionCode (params.oobCode.getD "")]
    match outcome with
    | .resolves => (effs, showSuccess d)
    | .rejects e => (effs, handleVerificationError e d)

/-- `returnToApp()`: navigate to the custom scheme, then schedule the
fallback alert after the fixed 1000 ms delay. -/
def returnToApp : List Effect :=
  [Effect.navigate "lightningmealplans://verify-email-complete",
   Effect.scheduleAlert 1000
     "If the app did not open automatically, please return to the Lightning Meal Plans app and sign in."]

/-- Modelled from the spec: the page markup that wires the Success-state
transition to `returnToApp` is not among the provided script sources
(the verification script defines `returnToApp` but the invocation lives
in the page). The spec states: "On call success: transition to Success
state, which then triggers the deep-link return." This composition runs
`initializeEmailVerification` and, exactly when the Success panel came
out active, appends the `returnToApp` effects. -/
def verificationPageFlow (params : UrlParams) (outcome : ProviderOutcome)
    (d : VerifyDom) : List Effect × VerifyDom :=
  let r := initializeEmailVerification params outcome d
  if r.2.successActive then (r.1 ++ returnToApp, r.2) else r

/-! ## Password reset page (js/reset-password.js) -/

/-- JavaScript `String.prototype.trim()`: strip whitespace from both
ends. Written structurally on the character list so it evaluates inside
the kernel. -/
def jsTrim (s : String) : String :=
  ⟨((s.data.dropWhile Char.isWhitespace).reverse.dropWhile Char.isWhitespace).reverse⟩

/-- The object returned by `validatePasswords`. -/
structure ValidationResult where
  isValid : Bool
  errors : List String
deriving DecidableEq, Repr

/-- `validatePasswords(newPassword, confirmPassword)`: four ordered
checks, each pushing its message; valid iff no message was pushed.
The mismatch check requires BOTH strings truthy (non-empty). -/
def validatePasswords (newPassword confirmPassword : String) : ValidationResult :=
  let e1 := if newPassword = "" ∨ jsTrim newPassword = "" then
              ["Password cannot be empty."] else []
  let e2 := if confirmPassword = "" ∨ jsTrim confirmPassword = "" then
              ["Please confirm your password."] else []
  let e3 := if newPassword ≠ "" ∧ newPassword.length < 8 then
              ["Password must be at least 8 characters long."] else []
  let e4 := if newPassword ≠ "" ∧ confirmPassword ≠ "" ∧ newPassword ≠ confirmPassword then
              ["Passwords do not match. Please try again."] else []
  let errors := e1 ++ e2 ++ e3 ++ e4
  { isValid := errors.length = 0, errors := errors }

/-- DOM state touched by the reset page script: the `#status-message`
banner, the two password inputs, and the submit button. Disabling is
tracked as one flag for the form inputs (set together by the phase A
failure path) and one for the submit button. -/
structure ResetDom where
  statusClass : String
  statusText : String
  statusHidden : Bool
  newPasswordField : String
  confirmPasswordField : String
  inputsDisabled : Bool
  submitDisabled : Bool
  submitText : String
deriving DecidableEq, Repr

/-- `displayMessage(message, isError)`: set the banner class by variant,
set its text, and unhide it. -/
def displayMessage (message : String) (isError : Bool) (d : ResetDom) : ResetDom :=
  { d with statusClass := if isError then "alert alert-error" else "alert alert-success",
           statusText := message, statusHidden := false }

/-- `hideMessage()`: add the `hidden` class to the banner. -/
def hideMessage (d : ResetDom) : ResetDom :=
  { d with statusHidden := true }

/-- `getFirebaseErrorMessage(error)`: the six recognized codes map to
fixed strings; the default branch returns `error.message` when truthy,
otherwise the generic fallback. -/
def getFirebaseErrorMessage (error : FirebaseError) : String :=
  if error.code = "auth/expired-action-code" then
    "This password reset link has expired. Please request a new one."
  else if error.code = "auth/invalid-action-code" then
    "This password reset link is invalid or has already been used. Please request a new one."
  else if error.code = "auth/user-disabled" then
    "This account has been disabled. Please contact support."
  else if error.code = "auth/user-not-found" then
    "No account found with this email. Please check and try again."
  else if error.code = "auth/weak-password" then
    "Password is too weak. Please choose a stronger password."
  else if error.code = "auth/network-request-failed" then
    "Unable to connect. Please check your internet connection and try again."
  else if error.message = "" then "An error occurred. Please try again."
  else error.message

/-- `initializePasswordReset()` (phase A): read the URL parameters,
check the three preconditions in order, then initialize Firebase and
verify the reset code; on reject display the mapped message and disable
every input and button in the reset form. -/
def initializePasswordReset (params : UrlParams) (outcome : ProviderOutcome)
    (d : ResetDom) : List Effect × ResetDom :=
  if ¬ truthy params.oobCode then
    ([Effect.readParams],
     displayMessage "Invalid password reset link. Missing verification code." true d)
  else if ¬ truthy params.apiKey then
    ([Effect.readParams],
     displayMessage "Invalid password reset link. Missing API key." true d)
  else if params.mode ≠ some "resetPassword" then
    ([Effect.readParams],
     displayMessage "Invalid password reset link. Incorrect mode." true d)
  else
    let effs := [Effect.readParams, Effect.initApp (params.apiKey.getD ""),
                 Effect.verifyResetCode (params.oobCode.getD "")]
    match outcome with
    | .resolves => (effs, d)
    | .rejects e =>
      let d1 := displayMessage (getFirebaseErrorMessage e) true d
      (effs, { d1 with inputsDisabled := true, submitDisabled := true })

/-- `handleFormSubmit(event)`: hide the banner, read the two field
values from the DOM, re-read the URL parameters (`getUrlParameters()` is
called again here, on the location current at submit time), validate
locally; on failure display the joined messages and stop; otherwise
disable the submit button, set its in-progress label, and call
`confirmPasswordReset(params.oobCode, newPassword)`; on resolve show the
success banner, clear the form and set the completed label (button left
disabled); on reject show the mapped message and restore the button. -/
def handleFormSubmit (loc : UrlParams) (outcome : ProviderOutcome)
    (d : ResetDom) : List Effect × ResetDom :=
  let d0 := hideMessage d
  let newPassword := d0.newPasswordField
  let confirmPassword := d0.confirmPasswordField
  let validation := validatePasswords newPassword confirmPassword
  if ¬ validation.isValid then
    ([Effect.readParams],
     displayMessage (String.intercalate " " validation.errors) true d0)
  else
    let originalButtonText := d0.submitText
    let d1 := { d0 with submitDisabled := true, submitText := "Resetting..." }
    let effs := [Effect.readParams, Effect.confirmReset loc.oobCode newPassword]
    match outcome with
    | .resolves =>
      let d2 := displayMessage
        "Password reset successful! You can now sign in with your new password." false d1
      (effs, { d2 with newPasswordField := "", confirmPasswordField := "",
                       submitText := "Password Reset Complete" })
    | .rejects e =>
      let d2 := displayMessage (getFirebaseErrorMessage e) true d1
      (effs, { d2 with submitDisabled := false, submitText := originalButtonText })

/-- A user attempt to submit the reset form: the values typed into the
two fields, the location current at submit time, and the outcome of the
provider call that a reaching submission would make. Typing requires the
inputs to be enabled; a submit event can only be raised while the submit
button is enabled (a disabled default button blocks both clicking and
implicit Enter submission), in which case `handleFormSubmit` runs. -/
def submitAttempt (typedNew typedConfirm : String) (loc : UrlParams)
    (outcome : ProviderOutcome) (acc : List Effect × ResetDom) :
    List Effect × ResetDom :=
  let d := if acc.2.inputsDisabled then acc.2
           else { acc.2 with newPasswordField := typedNew,
                             confirmPasswordField := typedConfirm }
  if d.submitDisabled then (acc.1, d)
  else
    let r := handleFormSubmit loc outcome d
    (acc.1 ++ r.1, r.2)

/-- One reset-page load followed by a sequence of submit attempts, each
given as (typed new password, typed confirm, location at submit time,
provider outcome). -/
def resetPageSession (loadLoc : UrlParams) (loadOutcome : ProviderOutcome)
    (d : ResetDom)
    (attempts : List (String × String × UrlParams × ProviderOutcome)) :
    List Effect × ResetDom :=
  attempts.foldl
    (fun acc a => submitAttempt a.1 a.2.1 a.2.2.1 a.2.2.2 acc)
    (initializePasswordReset loadLoc loadOutcome d)

/-- The reset form as served: banner hidden, fields empty, all controls
enabled. The submit button's initial label comes from the page markup;
it is a parameter here. -/
def initialResetDom (submitLabel : String) : ResetDom :=
  { statusClass := "", statusText := "", statusHidden := true,
    newPasswordField := "", confirmPasswordField := "",
    inputsDisabled := false, submitDisabled := false,
    submitText := submitLabel }

/-! ## Helper lemmas -/

/-- How many of the three verification panels carry the `active` flag. -/
def activeCount (d : VerifyDom) : Nat :=
  (cond d.loadingActive 1 0) + (cond d.successActive 1 0) + (cond d.errorActive 1 0)

/-- On the verification page, any violated precondition short-circuits to
`showError` with the message of the first violated check, with only the
parameter read performed. -/
lemma verify_early_return (p : UrlParams) (o : ProviderOutcome) (d : VerifyDom)
    (h : ¬ truthy p.oobCode = true ∨ ¬ truthy p.apiKey = true ∨ p.mode ≠ some "verifyEmail") :
    initializeEmailVerification p o d =
      ([Effect.readParams],
       showError
         (if ¬ truthy p.oobCode then "Invalid verification link. Missing verification code."
          else if ¬ truthy p.apiKey then "Invalid verification link. Missing API key."
          else "Invalid verification link. This link is not for email verification.")
         none d) := by
  unfold initializeEmailVerification
  by_cases t1 : truthy p.oobCode
  · by_cases t2 : truthy p.apiKey
    · have t3 : p.mode ≠ some "verifyEmail" := by
        rcases h with h | h | h
        · exact absurd t1 h
        · exact absurd t2 h
        · exact h
      simp [t1, t2, t3]
    · simp [t1, t2]
  · simp [t1]

/-- On the reset page, any violated precondition short-circuits to
`displayMessage` with the message of the first violated check, with only
the parameter read performed. -/
lemma reset_early_return (p : UrlParams) (o : ProviderOutcome) (d : ResetDom)
    (h : ¬ truthy p.oobCode = true ∨ ¬ truthy p.apiKey = true ∨ p.mode ≠ some "resetPassword") :
    initializePasswordReset p o d =
      ([Effect.readParams],
       displayMessage
         (if ¬ truthy p.oobCode then "Invalid password reset link. Missing verification code."
          else if ¬ truthy p.apiKey then "Invalid password reset link. Missing API key."
          else "Invalid password reset link. Incorrect mode.")
         true d) := by
  unfold initializePasswordReset
  by_cases t1 : truthy p.oobCode
  · by_cases t2 : truthy p.apiKey
    · have t3 : p.mode ≠ some "resetPassword" := by
        rcases h with h | h | h
        · exact absurd t1 h
        · exact absurd t2 h
        · exact h
      simp [t1, t2, t3]
    · simp [t1, t2]
  · simp [t1]

/-- A submit attempt on a form whose inputs and submit button are all
disabled changes nothing: typing is impossible and no submit event can
be raised. -/
lemma submitAttempt_frozen (a b : String) (loc : UrlParams) (o : ProviderOutcome)
    (acc : List Effect × ResetDom)
    (h1 : acc.2.inputsDisabled = true) (h2 : acc.2.submitDisabled = true) :
    submitAttempt a b loc o acc = acc := by
  simp [submitAttempt, h1, h2]

/-- Once every control in the reset form is disabled, an arbitrary
sequence of further submit attempts leaves the accumulated state and
trace untouched. -/
lemma session_frozen (attempts : List (String × String × UrlParams × ProviderOutcome))
    (acc : List Effect × ResetDom)
    (h1 : acc.2.inputsDisabled = true) (h2 : acc.2.submitDisabled = true) :
    attempts.foldl (fun acc a => submitAttempt a.1 a.2.1 a.2.2.1 a.2.2.2 acc) acc = acc := by
  induction attempts with
  | nil => rfl
  | cons a rest ih =>
    rw [List.foldl_cons, submitAttempt_frozen a.1 a.2.1 a.2.2.1 a.2.2.2 acc h1 h2]
    exact ih

/-- `showError` always writes the given message. -/
@[simp] lemma showError_message (m : String) (c : Option String) (d : VerifyDom) :
    (showError m c d).errorMessage = m := by
  unfold showError
  split <;> rfl

/-- `showError` always activates the error panel. -/
@[simp] lemma showError_active (m : String) (c : Option String) (d : VerifyDom) :
    (showError m c d).errorActive = true := by
  unfold showError
  split <;> rfl

/-! ## Claims -/

/-- Claim C8: starting from any prior assignment of the `active` flag to
the three panels, each show-state operation leaves exactly one panel
active, and repeating the same operation is idempotent. -/
theorem show_state_exactly_one_active_idempotent (d : VerifyDom) (m : String)
    (c : Option String) :
    activeCount (showLoading d) = 1 ∧
    activeCount (showSuccess d) = 1 ∧
    activeCount (showError m c d) = 1 ∧
    showLoading (showLoading d) = showLoading d ∧
    showSuccess (showSuccess d) = showSuccess d ∧
    showError m c (showError m c d) = showError m c d := by
  cases hc : truthy c <;>
    simp [showLoading, showSuccess, showError, activeCount, hc]

/-- Claim C5: each recognized provider error code produces exactly the
mapped message: on the verification page the four codes append their
text to the fixed prefix, on the reset page the six codes map to their
fixed strings, whatever the rejection's message field holds. -/
theorem recognized_codes_exact_messages (dv : VerifyDom) (dr : ResetDom) (msg : String) :
    (initializeEmailVerification ⟨some "C", some "K", some "verifyEmail"⟩
        (.rejects ⟨"auth/expired-action-code", msg⟩) dv).2.errorMessage =
      "Verification failed. This link has expired. Please request a new verification email from the app." ∧
    (initializeEmailVerification ⟨some "C", some "K", some "verifyEmail"⟩
        (.rejects ⟨"auth/invalid-action-code", msg⟩) dv).2.errorMessage =
      "Verification failed. This link is invalid or has already been used." ∧
    (initializeEmailVerification ⟨some "C", some "K", some "verifyEmail"⟩
        (.rejects ⟨"auth/user-disabled", msg⟩) dv).2.errorMessage =
      "Verification failed. This account has been disabled. Please contact support." ∧
    (initializeEmailVerification ⟨some "C", some "K", some "verifyEmail"⟩
        (.rejects ⟨"auth/user-not-found", msg⟩) dv).2.errorMessage =
      "Verification failed. User account not found." ∧
    (initializePasswordReset ⟨some "C", some "K", some "resetPassword"⟩
        (.rejects ⟨"auth/expired-action-code", msg⟩) dr).2.statusText =
      "This password reset link has expired. Please request a new one." ∧
    (initializePasswordReset ⟨some "C", some "K", some "resetPassword"⟩
        (.rejects ⟨"auth/invalid-action-code", msg⟩) dr).2.statusText =
      "This password reset link is invalid or has already been used. Please request a new one." ∧
    (initializePasswordReset ⟨some "C", some "K", some "resetPassword"⟩
        (.rejects ⟨"auth/user-disabled", msg⟩) dr).2.statusText =
      "This account has been disabled. Please contact support." ∧
    (initializePasswordReset ⟨some "C", some "K", some "resetPassword"⟩
        (.rejects ⟨"auth/user-not-found", msg⟩) dr).2.statusText =
      "No account found with this email. Please check and try again." ∧
    (initializePasswordReset ⟨some "C", some "K", some "resetPassword"⟩
        (.rejects ⟨"auth/weak-password", msg⟩) dr).2.statusText =
      "Password is too weak. Please choose a stronger password." ∧
    (initializePasswordReset ⟨some "C", some "K", some "resetPassword"⟩
        (.rejects ⟨"auth/network-request-failed", msg⟩) dr).2.statusText =
      "Unable to connect. Please check your internet connection and try again." := by
  simp [initializeEmailVerification, initializePasswordReset, handleVerificationError,
        verificationErrorSuffix, getFirebaseErrorMessage, showError, displayMessage, truthy]

/-- Claim C10: `showError` leaves the error-code text and the
error-details visibility untouched when no code is supplied (while still
setting the message and activating the error panel), and it sets them
exactly when a non-empty code is supplied, so a code shown by an earlier
call stays visible next to a later code-less message. -/
theorem showError_frame_on_error_code (d : VerifyDom) (m m1 : String) (c : String)
    (hc : c ≠ "") :
    (showError m none d).errorCodeText = d.errorCodeText ∧
    (showError m none d).errorDetailsVisible = d.errorDetailsVisible ∧
    (showError m none d).errorMessage = m ∧
    (showError m none d).errorActive = true ∧
    (showError m none (showError m1 (some c) d)).errorCodeText = "Error Code: " ++ c ∧
    (showError m none (showError m1 (some c) d)).errorDetailsVisible = true ∧
    (showError m none (showError m1 (some c) d)).errorMessage = m := by
  simp [showError, truthy, hc]

/-- Witness for C10 at a concrete dom, messages and code. -/
theorem showError_frame_on_error_code_witness :
    (showError "second message" none
        (showError "first message" (some "auth/expired-action-code")
          ⟨true, false, false, "", "", false⟩)).errorCodeText =
      "Error Code: auth/expired-action-code" ∧
    (showError "second message" none
        (showError "first message" (some "auth/expired-action-code")
          ⟨true, false, false, "", "", false⟩)).errorDetailsVisible = true := by
  have h := showError_frame_on_error_code ⟨true, false, false, "", "", false⟩
    "second message" "first message" "auth/expired-action-code" (by decide)
  exact ⟨h.2.2.2.2.1, h.2.2.2.2.2.1⟩

/-- Claim C4 counterexample: with the non-empty new password
"goodpass1" and an empty confirm field, `validatePasswords` produces
only the empty-confirm message — the passwords-do-not-match message is
absent, because the mismatch check requires both fields non-empty. -/
theorem empty_confirm_no_mismatch_message :
    validatePasswords "goodpass1" "" = ⟨false, ["Please confirm your password."]⟩ ∧
    "Passwords do not match. Please try again." ∉
      (validatePasswords "goodpass1" "").errors := by
  constructor
  · rfl
  · decide

/-- Claim C4 as amended: an empty confirm field with a non-empty,
non-whitespace new password never yields the mismatch message; it yields
the empty-confirm message alone when the new password has at least 8
characters, and joined by a single space with the length message when it
is shorter. -/
theorem empty_confirm_only_confirm_message (np : String)
    (h1 : np ≠ "") (h2 : jsTrim np ≠ "") :
    "Passwords do not match. Please try again." ∉ (validatePasswords np "").errors ∧
    (8 ≤ np.length → (validatePasswords np "").errors = ["Please confirm your password."]) ∧
    (np.length < 8 → String.intercalate " " (validatePasswords np "").errors =
      "Please confirm your password. Password must be at least 8 characters long.") := by
  refine ⟨?_, ?_, ?_⟩
  · simp [validatePasswords, h1, h2]
  · intro hlen
    simp [validatePasswords, h1, h2, Nat.not_lt.mpr hlen]
  · intro hlen
    simp [validatePasswords, h1, h2, hlen]
    rfl

/-- Witness for C4's amended theorem at new password "goodpass1". -/
theorem empty_confirm_only_confirm_message_witness :
    (validatePasswords "goodpass1" "").errors = ["Please confirm your password."] := by
  exact (empty_confirm_only_confirm_message "goodpass1" (by decide) (by decide)).2.1
    (by decide)

/-- Claim C3 counterexample: on the reset page an unrecognized code does
NOT always produce the fixed generic fallback — with a rejection whose
code is unrecognized and whose message field is "Custom provider text.",
the phase A display shows that raw message field, not the generic one. -/
theorem reset_unrecognized_code_shows_raw_message :
    (initializePasswordReset ⟨some "CODE", some "KEY", some "resetPassword"⟩
        (.rejects ⟨"auth/some-unrecognized-code", "Custom provider text."⟩)
        (initialResetDom "Reset Password")).2.statusText = "Custom provider text." ∧
    "Custom provider text." ≠ "An error occurred. Please try again." := by
  constructor
  · rfl
  · decide

/-- Claim C3 as amended: on the verification page any code outside its
four recognized ones (including the reset-only codes weak-password and
network-request-failed) always yields the fixed generic fallback,
whatever the message field; on the reset page a code outside its six
recognized ones yields the rejection's raw message field when it is
non-empty, and the fixed generic fallback only when that field is
empty. -/
theorem unrecognized_code_fallback_amended (e : FirebaseError) (d : VerifyDom)
    (h1 : e.code ≠ "auth/expired-action-code")
    (h2 : e.code ≠ "auth/invalid-action-code")
    (h3 : e.code ≠ "auth/user-disabled")
    (h4 : e.code ≠ "auth/user-not-found") :
    (handleVerificationError e d).errorMessage =
      "Verification failed. Please try again or request a new verification email from the app." ∧
    (e.code ≠ "auth/weak-password" → e.code ≠ "auth/network-request-failed" →
      getFirebaseErrorMessage e =
        (if e.message = "" then "An error occurred. Please try again." else e.message)) := by
  constructor
  · simp [handleVerificationError, verificationErrorSuffix, h1, h2, h3, h4]
  · intro h5 h6
    simp [getFirebaseErrorMessage, h1, h2, h3, h4, h5, h6]

/-- Witness for C3's amended theorem: the reset-only code
`auth/weak-password` is unrecognized on the verification page and gets
its fixed generic fallback; a code unrecognized everywhere makes the
reset page show the raw message field. -/
theorem unrecognized_code_fallback_amended_witness :
    (handleVerificationError ⟨"auth/weak-password", "Custom"⟩
        ⟨true, false, false, "", "", false⟩).errorMessage =
      "Verification failed. Please try again or request a new verification email from the app." ∧
    getFirebaseErrorMessage ⟨"auth/other", "Custom"⟩ = "Custom" := by
  have hverify := unrecognized_code_fallback_amended ⟨"auth/weak-password", "Custom"⟩
    ⟨true, false, false, "", "", false⟩
    (by decide) (by decide) (by decide) (by decide)
  have hreset := unrecognized_code_fallback_amended ⟨"auth/other", "Custom"⟩
    ⟨true, false, false, "", "", false⟩
    (by decide) (by decide) (by decide) (by decide)
  exact ⟨hverify.1, hreset.2 (by decide) (by decide)⟩

/-- Claim C1: with a truthy code, a truthy API key and mode
`verifyEmail`, a resolving `applyActionCode` leaves the Success panel
active, and that transition triggers the deep-link return: the
navigation to the custom scheme followed by the scheduled fallback
alert. -/
theorem verify_success_triggers_deep_link (p : UrlParams) (d : VerifyDom)
    (h1 : truthy p.oobCode = true) (h2 : truthy p.apiKey = true)
    (h3 : p.mode = some "verifyEmail") :
    (verificationPageFlow p .resolves d).2.successActive = true ∧
    (verificationPageFlow p .resolves d).2.loadingActive = false ∧
    (verificationPageFlow p .resolves d).2.errorActive = false ∧
    (verificationPageFlow p .resolves d).1 =
      [Effect.readParams, Effect.initApp (p.apiKey.getD ""),
       Effect.applyActionCode (p.oobCode.getD ""),
       Effect.navigate "lightningmealplans://verify-email-complete",
       Effect.scheduleAlert 1000
         "If the app did not open automatically, please return to the Lightning Meal Plans app and sign in."] := by
  simp [verificationPageFlow, initializeEmailVerification, showSuccess, returnToApp,
        h1, h2, h3]

/-- Witness for C1 at a concrete URL and initial dom. -/
theorem verify_success_triggers_deep_link_witness :
    (verificationPageFlow ⟨some "CODE", some "KEY", some "verifyEmail"⟩ .resolves
        ⟨true, false, false, "", "", false⟩).2.successActive = true ∧
    (verificationPageFlow ⟨some "CODE", some "KEY", some "verifyEmail"⟩ .resolves
        ⟨true, false, false, "", "", false⟩).1 =
      [Effect.readParams, Effect.initApp "KEY", Effect.applyActionCode "CODE",
       Effect.navigate "lightningmealplans://verify-email-complete",
       Effect.scheduleAlert 1000
         "If the app did not open automatically, please return to the Lightning Meal Plans app and sign in."] := by
  have h := verify_success_triggers_deep_link ⟨some "CODE", some "KEY", some "verifyEmail"⟩
    ⟨true, false, false, "", "", false⟩ (by decide) (by decide) rfl
  exact ⟨h.1, h.2.2.2⟩

/-- Claim C2: on each page, whenever the code is missing, the API key is
missing, or the mode differs from the page's literal, the script emits
only the parameter read (no `initializeApp` session use and no
action-code call) and displays the specific message of the first
violated check, in the order code, API key, mode. -/
theorem missing_param_specific_message_no_network (p : UrlParams)
    (o : ProviderOutcome) (dv : VerifyDom) (dr : ResetDom) :
    ((¬ truthy p.oobCode = true ∨ ¬ truthy p.apiKey = true ∨ p.mode ≠ some "verifyEmail") →
      (initializeEmailVerification p o dv).1 = [Effect.readParams] ∧
      (initializeEmailVerification p o dv).2.errorActive = true ∧
      (initializeEmailVerification p o dv).2.errorMessage =
        (if ¬ truthy p.oobCode then "Invalid verification link. Missing verification code."
         else if ¬ truthy p.apiKey then "Invalid verification link. Missing API key."
         else "Invalid verification link. This link is not for email verification.")) ∧
    ((¬ truthy p.oobCode = true ∨ ¬ truthy p.apiKey = true ∨ p.mode ≠ some "resetPassword") →
      (initializePasswordReset p o dr).1 = [Effect.readParams] ∧
      (initializePasswordReset p o dr).2.statusHidden = false ∧
      (initializePasswordReset p o dr).2.statusClass = "alert alert-error" ∧
      (initializePasswordReset p o dr).2.statusText =
        (if ¬ truthy p.oobCode then "Invalid password reset link. Missing verification code."
         else if ¬ truthy p.apiKey then "Invalid password reset link. Missing API key."
         else "Invalid password reset link. Incorrect mode.")) := by
  constructor
  · intro h
    rw [verify_early_return p o dv h]
    simp
  · intro h
    rw [reset_early_return p o dr h]
    simp [displayMessage]

/-- Witness for C2 with all three parameters absent on both pages. -/
theorem missing_param_specific_message_no_network_witness :
    (initializeEmailVerification ⟨none, none, none⟩ .resolves
        ⟨true, false, false, "", "", false⟩).1 = [Effect.readParams] ∧
    (initializeEmailVerification ⟨none, none, none⟩ .resolves
        ⟨true, false, false, "", "", false⟩).2.errorMessage =
      "Invalid verification link. Missing verification code." ∧
    (initializePasswordReset ⟨none, none, none⟩ .resolves
        (initialResetDom "Reset Password")).1 = [Effect.readParams] ∧
    (initializePasswordReset ⟨none, none, none⟩ .resolves
        (initialResetDom "Reset Password")).2.statusText =
      "Invalid password reset link. Missing verification code." := by
  have h := missing_param_specific_message_no_network ⟨none, none, none⟩ .resolves
    ⟨true, false, false, "", "", false⟩ (initialResetDom "Reset Password")
  have hv := h.1 (Or.inl (by decide))
  have hr := h.2 (Or.inl (by decide))
  exact ⟨hv.1, hv.2.2, hr.1, hr.2.2.2⟩

/-- Claim C6: with valid parameters, a phase A rejection displays the
mapped message and disables every input and button of the reset form,
and no later submit attempt (of any number, with any typed values,
locations and outcomes) changes the page state again. -/
theorem phaseA_failure_disables_form_forever (p : UrlParams) (e : FirebaseError)
    (d : ResetDom)
    (h1 : truthy p.oobCode = true) (h2 : truthy p.apiKey = true)
    (h3 : p.mode = some "resetPassword")
    (attempts : List (String × String × UrlParams × ProviderOutcome)) :
    (resetPageSession p (.rejects e) d attempts).2 =
      (initializePasswordReset p (.rejects e) d).2 ∧
    (resetPageSession p (.rejects e) d attempts).2.inputsDisabled = true ∧
    (resetPageSession p (.rejects e) d attempts).2.submitDisabled = true ∧
    (resetPageSession p (.rejects e) d attempts).2.statusText = getFirebaseErrorMessage e ∧
    (resetPageSession p (.rejects e) d attempts).2.statusClass = "alert alert-error" ∧
    (resetPageSession p (.rejects e) d attempts).2.statusHidden = false := by
  have hload : initializePasswordReset p (.rejects e) d =
      ([Effect.readParams, Effect.initApp (p.apiKey.getD ""),
        Effect.verifyResetCode (p.oobCode.getD "")],
       { displayMessage (getFirebaseErrorMessage e) true d with
         inputsDisabled := true, submitDisabled := true }) := by
    simp [initializePasswordReset, h1, h2, h3]
  have hsession : resetPageSession p (.rejects e) d attempts =
      initializePasswordReset p (.rejects e) d := by
    unfold resetPageSession
    apply session_frozen
    · rw [hload]
    · rw [hload]
  rw [hsession, hload]
  simp [displayMessage]

/-- Witness for C6: concrete rejected load, one later submit attempt. -/
theorem phaseA_failure_disables_form_forever_witness :
    (resetPageSession ⟨some "CODE", some "KEY", some "resetPassword"⟩
        (.rejects ⟨"auth/invalid-action-code", ""⟩) (initialResetDom "Reset Password")
        [("newpassword1", "newpassword1",
          ⟨some "CODE", some "KEY", some "resetPassword"⟩, .resolves)]).2.inputsDisabled
      = true ∧
    (resetPageSession ⟨some "CODE", some "KEY", some "resetPassword"⟩
        (.rejects ⟨"auth/invalid-action-code", ""⟩) (initialResetDom "Reset Password")
        [("newpassword1", "newpassword1",
          ⟨some "CODE", some "KEY", some "resetPassword"⟩, .resolves)]).2.submitDisabled
      = true ∧
    (resetPageSession ⟨some "CODE", some "KEY", some "resetPassword"⟩
        (.rejects ⟨"auth/invalid-action-code", ""⟩) (initialResetDom "Reset Password")
        [("newpassword1", "newpassword1",
          ⟨some "CODE", some "KEY", some "resetPassword"⟩, .resolves)]).2.statusText =
      "This password reset link is invalid or has already been used. Please request a new one." := by
  have h := phaseA_failure_disables_form_forever
    ⟨some "CODE", some "KEY", some "resetPassword"⟩ ⟨"auth/invalid-action-code", ""⟩
    (initialResetDom "Reset Password") (by decide) (by decide) rfl
    [("newpassword1", "newpassword1",
      ⟨some "CODE", some "KEY", some "resetPassword"⟩, .resolves)]
  exact ⟨h.2.1, h.2.2.1, h.2.2.2.1⟩

/-- Claim C9: a missing-parameter (or wrong-mode) load shows its error
but leaves the form controls enabled, so a later submission that passes
local validation still reaches `confirmPasswordReset`, carrying the
absent or wrong-mode action code from the URL. -/
theorem missing_param_form_still_submits (p : UrlParams) (o o2 : ProviderOutcome)
    (d : ResetDom) (np cp : String)
    (h : ¬ truthy p.oobCode = true ∨ ¬ truthy p.apiKey = true ∨ p.mode ≠ some "resetPassword")
    (hd1 : d.inputsDisabled = false) (hd2 : d.submitDisabled = false)
    (hv : (validatePasswords np cp).isValid = true) :
    (initializePasswordReset p o d).2.inputsDisabled = false ∧
    (initializePasswordReset p o d).2.submitDisabled = false ∧
    (resetPageSession p o d [(np, cp, p, o2)]).1 =
      [Effect.readParams, Effect.readParams, Effect.confirmReset p.oobCode np] := by
  have hload := reset_early_return p o d h
  refine ⟨?_, ?_, ?_⟩
  · rw [hload]
    simp [displayMessage, hd1]
  · rw [hload]
    simp [displayMessage, hd2]
  · unfold resetPageSession
    rw [List.foldl_cons, List.foldl_nil, hload]
    cases o2 <;>
      simp [submitAttempt, displayMessage, hd1, hd2, handleFormSubmit, hideMessage, hv]

/-- Witness for C9: URL with no `oobCode`, matching passwords of length
at least 8; the trace ends in `confirmPasswordReset(null, newPassword)`. -/
theorem missing_param_form_still_submits_witness :
    (resetPageSession ⟨none, some "KEY", some "resetPassword"⟩ .resolves
        (initialResetDom "Reset Password")
        [("password123", "password123", ⟨none, some "KEY", some "resetPassword"⟩,
          .resolves)]).1 =
      [Effect.readParams, Effect.readParams, Effect.confirmReset none "password123"] := by
  have h := missing_param_form_still_submits ⟨none, some "KEY", some "resetPassword"⟩
    .resolves .resolves (initialResetDom "Reset Password") "password123" "password123"
    (Or.inl (by decide)) rfl rfl (by decide)
  exact h.2.2

/-- Claim C7 counterexample: in a session that loads with code CODE-A
and then submits once while the location carries code CODE-B, the
parameters are read twice (not exactly once), and the submit handler
calls `confirmPasswordReset` with the freshly re-read CODE-B, not the
load-time CODE-A. -/
theorem params_reread_on_submit :
    (resetPageSession ⟨some "CODE-A", some "KEY", some "resetPassword"⟩ .resolves
        (initialResetDom "Reset Password")
        [("password123", "password123",
          ⟨some "CODE-B", some "KEY", some "resetPassword"⟩, .resolves)]).1.countP
      (fun e => e.isParamRead) = 2 ∧
    Effect.confirmReset (some "CODE-B") "password123" ∈
      (resetPageSession ⟨some "CODE-A", some "KEY", some "resetPassword"⟩ .resolves
        (initialResetDom "Reset Password")
        [("password123", "password123",
          ⟨some "CODE-B", some "KEY", some "resetPassword"⟩, .resolves)]).1 ∧
    Effect.confirmReset (some "CODE-A") "password123" ∉
      (resetPageSession ⟨some "CODE-A", some "KEY", some "resetPassword"⟩ .resolves
        (initialResetDom "Reset Password")
        [("password123", "password123",
          ⟨some "CODE-B", some "KEY", some "resetPassword"⟩, .resolves)]).1 := by
  refine ⟨by decide, by decide, by decide⟩

/-- Claim C7 as amended: the parameters are read from the location once
per entry point — once by each page-load initializer and once more by
each delivered reset-form submission, whether or not local validation
passes — and a submission passing local validation operates on the
values re-read at submit time, passing the submit-time `oobCode` to
`confirmPasswordReset`. -/
theorem params_read_once_per_entry (p loc : UrlParams) (o : ProviderOutcome)
    (dv : VerifyDom) (dr : ResetDom) :
    (initializeEmailVerification p o dv).1.countP (fun e => e.isParamRead) = 1 ∧
    (initializePasswordReset p o dr).1.countP (fun e => e.isParamRead) = 1 ∧
    (handleFormSubmit loc o dr).1.countP (fun e => e.isParamRead) = 1 ∧
    ((validatePasswords dr.newPasswordField dr.confirmPasswordField).isValid = true →
      Effect.confirmReset loc.oobCode dr.newPasswordField ∈ (handleFormSubmit loc o dr).1) := by
  refine ⟨?_, ?_, ?_, ?_⟩
  · unfold initializeEmailVerification
    cases o
    all_goals repeat' split
    all_goals simp [List.countP_cons, List.countP_nil, Effect.isParamRead]
  · unfold initializePasswordReset
    cases o
    all_goals repeat' split
    all_goals simp [List.countP_cons, List.countP_nil, Effect.isParamRead]
  · unfold handleFormSubmit
    cases o
    all_goals cases hval : (validatePasswords dr.newPasswordField dr.confirmPasswordField).isValid
    all_goals simp [hideMessage, hval, List.countP_cons, List.countP_nil, Effect.isParamRead]
  · intro hv
    unfold handleFormSubmit
    cases o <;> simp [hideMessage, hv]

/-- Witness for C7's amended theorem: a form whose fields pass local
validation reaches `confirmPasswordReset` with the submit-time code,
and a form failing local validation (empty fields) still performs its
single parameter read. -/
theorem params_read_once_per_entry_witness :
    (initializePasswordReset ⟨some "CODE-A", some "KEY", some "resetPassword"⟩ .resolves
        ⟨"", "", true, "password123", "password123", false, false, "Reset Password"⟩).1.countP
      (fun e => e.isParamRead) = 1 ∧
    Effect.confirmReset (some "CODE-B") "password123" ∈
      (handleFormSubmit ⟨some "CODE-B", some "KEY", some "resetPassword"⟩ .resolves
        ⟨"", "", true, "password123", "password123", false, false, "Reset Password"⟩).1 ∧
    (handleFormSubmit ⟨some "CODE-B", some "KEY", some "resetPassword"⟩ .resolves
        (initialResetDom "Reset Password")).1.countP (fun e => e.isParamRead) = 1 := by
  have h := params_read_once_per_entry ⟨some "CODE-A", some "KEY", some "resetPassword"⟩
    ⟨some "CODE-B", some "KEY", some "resetPassword"⟩ .resolves
    ⟨true, false, false, "", "", false⟩
    ⟨"", "", true, "password123", "password123", false, false, "Reset Password"⟩
  have hempty := params_read_once_per_entry ⟨some "CODE-A", some "KEY", some "resetPassword"⟩
    ⟨some "CODE-B", some "KEY", some "resetPassword"⟩ .resolves
    ⟨true, false, false, "", "", false⟩
    (initialResetDom "Reset Password")
  exact ⟨h.2.1, h.2.2.2 (by decide), hempty.2.2.1⟩

end MealPlans
